import Mathlib

/-!
Shallow embedding of the stage-aware input-resolution layer of the
lightning-flash repository (flash/core/data/io/input_base.py), of the video
classification predict input (flash/video/classification/input.py), and of the
pytorch_tabular backbone registry
(flash/core/integrations/pytorch_tabular/backbones.py), together with theorems
settling the specification claims about them.

Python datasets are modelled as explicit state records; exceptions are
modelled with `Except`; the dynamic `getattr`-based hook tables of a concrete
dataset class are modelled as partial maps from method names to functions.
-/

/-- Modelled from the spec: the `RunningStage` enumeration
(flash/core/utilities/stages.py, not included under src/): an enumerated value
in \x7btraining, validating, testing, predicting, sanity-checking, tuning\x7d. -/
inductive RunningStage : Type
  | training
  | validating
  | testing
  | predicting
  | sanity_checking
  | tuning
deriving DecidableEq

/-- Modelled from the spec: the stage-to-name-piece table used by
`DataPipeline._resolve_function_hierarchy` (flash/core/data/data_pipeline.py,
not included under src/): training maps to "train", validating to "val",
testing to "test", predicting to "predict", sanity-checking to
"sanity_check", tuning to "tune". -/
def stagePieceOf : RunningStage → String
  | RunningStage.training => "train"
  | RunningStage.validating => "val"
  | RunningStage.testing => "test"
  | RunningStage.predicting => "predict"
  | RunningStage.sanity_checking => "sanity_check"
  | RunningStage.tuning => "tune"

/-- Modelled from the spec: `DataPipeline._resolve_function_hierarchy`
(flash/core/data/data_pipeline.py, not included under src/): looks for a
member named stage-piece `++ "_" ++` hook base name on the concrete dataset
type (membership test abstracted as the `hasMember` predicate); if absent,
falls back to the hook base name. -/
def resolve_function_hierarchy (hookBaseName : String) (hasMember : String → Bool)
    (stage : RunningStage) : String :=
  if hasMember (stagePieceOf stage ++ "_" ++ hookBaseName) then
    stagePieceOf stage ++ "_" ++ hookBaseName
  else
    hookBaseName

/-- Python exceptions that the embedded code can raise. -/
inductive PyError : Type
  | indexError
  | attributeError
  | stopIteration
  | runtimeError (msg : String)
  | misconfigurationException (msg : String)
deriving DecidableEq

variable {d s : Type}

/-- A concrete dataset class, seen through `getattr`: a table of
load_data-family methods and a table of load_sample-family methods, both
keyed by method name (the base `InputBase` generic hooks, when present,
appear under the names "load_data" and "load_sample"). A load_data-family
method receives the positional argument list (each argument is `none` for
Python `None` or `some` a collection) and returns `none` when it raises or
returns `None`. -/
structure InputClass (d s : Type) : Type where
  dataHook : String → Option (List (Option (List d)) → Option (List d))
  sampleHook : String → Option (d → s)

/-- Whether `getattr` finds a member of the given name on the class. -/
def InputClass.hasMember (cls : InputClass d s) (n : String) : Bool :=
  (cls.dataHook n).isSome || (cls.sampleHook n).isSome

/-- The generic `InputBase.load_data` static hook (input_base.py lines 70-80):
`return args[0]` — `none` when the argument tuple is empty or its first entry
is `None`. -/
def InputBase.load_data (args : List (Option (List d))) : Option (List d) :=
  args.head?.bind id

/-- `InputBase._call_load_data` (input_base.py lines 52-56): `getattr` the
resolved load_data hook and call it on the arguments; `none` models an
unresolvable name. -/
def call_load_data (cls : InputClass d s) (stage : RunningStage)
    (args : List (Option (List d))) : Option (List d) :=
  (cls.dataHook (resolve_function_hierarchy "load_data" cls.hasMember stage)).bind
    (fun f => f args)

/-- `InputBase._call_load_sample` (input_base.py lines 58-68): `getattr` the
resolved load_sample hook and call it on one sample. -/
def call_load_sample (cls : InputClass d s) (stage : RunningStage) (sample : d) :
    Option s :=
  (cls.sampleHook (resolve_function_hierarchy "load_sample" cls.hasMember stage)).map
    (fun f => f sample)

/-- The per-instance state written by `InputBase.__init__`
(input_base.py lines 38-50): the recorded running stage and the loaded data
collection. -/
structure InputBaseState (d : Type) : Type where
  running_stage : RunningStage
  data : List d
deriving DecidableEq

/-- `InputBase.__init__` (input_base.py lines 38-50), instrumented with a
count of how many times `_call_load_data` is invoked: `self.data = []`; then,
if `args` is empty, `args[0]` raises IndexError; if `args[0] is None` the data
stays empty with no load call; otherwise `self.data =
self._call_load_data(*args)` (one load call, an unresolvable hook name being
an AttributeError). -/
def InputBase.initWithCount (cls : InputClass d s) (running_stage : RunningStage)
    (args : List (Option (List d))) : Except PyError (InputBaseState d) × Nat :=
  match args.head? with
  | none => (Except.error PyError.indexError, 0)
  | some none => (Except.ok { running_stage := running_stage, data := [] }, 0)
  | some (some _) =>
      match call_load_data cls running_stage args with
      | some newData => (Except.ok { running_stage := running_stage, data := newData }, 1)
      | none => (Except.error PyError.attributeError, 1)

/-- `InputBase.__init__` (input_base.py lines 38-50): the constructed state,
forgetting the instrumentation counter. -/
def InputBase.init (cls : InputClass d s) (running_stage : RunningStage)
    (args : List (Option (List d))) : Except PyError (InputBaseState d) :=
  (InputBase.initWithCount cls running_stage args).1

/-- CPython sequence indexing `xs[i]` for a list: a negative index is first
shifted by the length; an index that is still out of range yields `none`
(IndexError). -/
def pySeqGet {α : Type} (xs : List α) (i : Int) : Option α :=
  let j : Int := if i < 0 then i + xs.length else i
  if j < 0 then none else xs.get? j.toNat

/-- `Input.__len__` (input_base.py lines 112-113): `len(self.data)`. -/
def Input.len (st : InputBaseState d) : Nat :=
  st.data.length

/-- `Input.__getitem__` (input_base.py lines 109-110):
`self._call_load_sample(self.data[index])` — the indexing happens first and
can raise IndexError. -/
def Input.getitem (cls : InputClass d s) (st : InputBaseState d) (index : Int) :
    Except PyError s :=
  match pySeqGet st.data index with
  | none => Except.error PyError.indexError
  | some x =>
      match call_load_sample cls st.running_stage x with
      | some y => Except.ok y
      | none => Except.error PyError.attributeError

/-- The per-instance state of an `IterableInput` mid-iteration: the base
state plus the `self.data_iter` cursor (the suffix of `self.data` not yet
consumed). -/
structure IterState (d : Type) extends InputBaseState d : Type where
  data_iter : List d
deriving DecidableEq

/-- `IterableInput.__iter__` (input_base.py lines 124-126) called on a fresh
instance: `self.data_iter = iter(self.data); return self`. -/
def IterableInput.iter (st : InputBaseState d) : IterState d :=
  { toInputBaseState := st, data_iter := st.data }

/-- `IterableInput.__iter__` (input_base.py lines 124-126) called again on an
instance that may be mid-iteration: the single instance-local cursor is reset
to the start of `self.data` and the instance itself is returned as the
handle. -/
def IterableInput.reiter (st : IterState d) : IterState d :=
  { st with data_iter := st.data }

/-- `IterableInput.__next__` (input_base.py lines 128-129):
`self._call_load_sample(next(self.data_iter))` — StopIteration when the
cursor is exhausted, otherwise the loaded sample plus the advanced state. -/
def IterableInput.next (cls : InputClass d s) (st : IterState d) :
    Except PyError (s × IterState d) :=
  match st.data_iter with
  | [] => Except.error PyError.stopIteration
  | x :: rest =>
      match call_load_sample cls st.running_stage x with
      | some y => Except.ok (y, { st with data_iter := rest })
      | none => Except.error PyError.attributeError

/-- Run `IterableInput.next` up to `fuel` times, collecting the produced
samples and stopping at the first raised exception. -/
def IterableInput.drive (cls : InputClass d s) : Nat → IterState d → List s × IterState d
  | 0, st => ([], st)
  | fuel + 1, st =>
      match IterableInput.next cls st with
      | Except.ok (y, st') =>
          let r := IterableInput.drive cls fuel st'
          (y :: r.1, r.2)
      | Except.error _ => ([], st)

/-- The message of the RuntimeError raised by `_check_init`
(input_base.py lines 93-98). -/
def checkInitMsg : String :=
  "Classes which extend `Input` or `IterableInput` should not override `__init__`. " ++
  "All instantiation logic should take place within the `load_data` hook."

/-- `_check_init` (input_base.py lines 93-98): raise a RuntimeError when the
subclass overrides `__init__` (the external `is_overridden` check is
abstracted as the boolean flag). -/
def check_init (overridesInit : Bool) : Except PyError Unit :=
  if overridesInit then Except.error (PyError.runtimeError checkInitMsg) else Except.ok ()

/-- `_InputMeta.__new__` (input_base.py lines 101-105): build the class
object, then run `_check_init` on it before returning it, so a disallowed
`__init__` override aborts the class definition itself. -/
def InputMeta_new (cls : InputClass d s) (overridesInit : Bool) :
    Except PyError (InputClass d s) :=
  match check_init overridesInit with
  | Except.error e => Except.error e
  | Except.ok _ => Except.ok cls

/-- `_IterableInputMeta.__new__` (input_base.py lines 116-120): same
class-definition-time check for `IterableInput` subclasses. -/
def IterableInputMeta_new (cls : InputClass d s) (overridesInit : Bool) :
    Except PyError (InputClass d s) :=
  match check_init overridesInit with
  | Except.error e => Except.error e
  | Except.ok _ => Except.ok cls

variable {τ : Type}

/-- The dictionary returned by `EncodedVideo.get_clip` in the external
pytorchvideo library (opaque dependency): a "video" entry and an "audio"
entry, each possibly `None`; the tensor payloads are left abstract in the
type parameter. -/
structure ClipDict (τ : Type) : Type where
  video : Option τ
  audio : Option τ
deriving DecidableEq

/-- An encoded video as seen through the external pytorchvideo
`EncodedVideo` interface (opaque dependency): its name, its duration, and its
`get_clip` operation taking a clip start and end time. Times are modelled as
rationals. -/
structure EncodedVideoModel (τ : Type) : Type where
  name : String
  duration : Rat
  get_clip : Rat → Rat → Option (ClipDict τ)

/-- The instance attributes of `VideoClassificationPathsPredictInput` set by
`predict_load_data` (input.py lines 229-243) and read by
`predict_load_sample`: the clip sampler (an opaque function from a start time
and a video duration to clip start, clip end, clip index, augmentation index
and a last-clip flag), its `_clip_duration` attribute, and the decode-audio
flag. -/
structure VideoPredictState : Type where
  clip_sampler : Rat → Rat → Rat × Rat × Nat × Nat × Bool
  clip_sampler_clip_duration : Rat
  decode_audio : Bool

/-- The sample mapping returned by
`VideoClassificationPathsPredictInput.predict_load_sample`
(input.py lines 268-276): the "video", "video_name", "video_index",
"clip_index", "aug_index" entries, the optional "audio" entry, and the
metadata filepath. -/
structure PredictVideoSample (τ : Type) : Type where
  video : τ
  video_name : String
  video_index : Nat
  clip_index : Nat
  aug_index : Nat
  audio : Option τ
  metadata_filepath : String
deriving DecidableEq

/-- The message of the MisconfigurationException raised by
`predict_load_sample` (input.py lines 262-264): the video duration
(available) and the clip sampler clip duration (required). -/
def tooShortMsg (duration clipDuration : Rat) : String :=
  "The provided video is too short " ++ toString duration ++
    " to be clipped at " ++ toString clipDuration

/-- The `clip_is_null` condition of `predict_load_sample`
(input.py lines 257-259): the loaded clip is `None`, or its "video" entry is
`None`, or audio decoding was requested and its "audio" entry is `None`. -/
def clipIsNull (decode_audio : Bool) (loaded_clip : Option (ClipDict τ)) : Bool :=
  loaded_clip.isNone || (loaded_clip.bind ClipDict.video).isNone ||
    ((loaded_clip.bind ClipDict.audio).isNone && decode_audio)

/-- `VideoClassificationPathsPredictInput.predict_load_sample`
(input.py lines 245-276): open the video at the sample path (the external
`EncodedVideo.from_path` is abstracted as the `fromPath` argument), sample a
clip over `[0, duration]`, load it, raise a MisconfigurationException when
the clip is null, and otherwise return the sample mapping. The arms after a
false `clip_is_null` test whose patterns the test already rules out are
filled with an AttributeError and are unreachable. -/
def predict_load_sample (st : VideoPredictState)
    (fromPath : String → EncodedVideoModel τ) (sample : String) :
    Except PyError (PredictVideoSample τ) :=
  let video := fromPath sample
  let r := st.clip_sampler 0 video.duration
  let clip_start := r.1
  let clip_end := r.2.1
  let clip_index := r.2.2.1
  let aug_index := r.2.2.2.1
  let loaded_clip := video.get_clip clip_start clip_end
  if clipIsNull st.decode_audio loaded_clip then
    Except.error (PyError.misconfigurationException
      (tooShortMsg video.duration st.clip_sampler_clip_duration))
  else
    match loaded_clip with
    | some clip =>
        match clip.video with
        | some frames =>
            Except.ok
              { video := frames
                video_name := video.name
                video_index := 0
                clip_index := clip_index
                aug_index := aug_index
                audio := clip.audio
                metadata_filepath := sample }
        | none => Except.error PyError.attributeError
    | none => Except.error PyError.attributeError

/-- The six pytorch_tabular model-config classes zipped with backbone names
in backbones.py lines 35-38. -/
inductive PtConfigKind : Type
  | tabNetModelConfig
  | tabTransformerConfig
  | ftTransformerConfig
  | autoIntConfig
  | nodeConfig
  | categoryEmbeddingModelConfig
deriving DecidableEq

/-- The `parameters` DictConfig passed to `load_pytorch_tabular`
(backbones.py line 27); only the "embedding_dims" entry is read by the code
under src/, the rest is kept opaque. -/
structure TabularParameters : Type where
  embedding_dims : List (Nat × Nat)
  rest : List (String × String)
deriving DecidableEq

/-- The model-config instance built by `model_config(task=task_type,
embedding_dims=parameters["embedding_dims"])` (backbones.py line 28),
tagged with the config class it was built from. -/
structure ModelConfigInst : Type where
  kind : PtConfigKind
  task : String
  embedding_dims : List (Nat × Nat)
deriving DecidableEq

/-- The merged OmegaConf configuration of backbones.py lines 29-31: the
parameters, the model-config instance, and the (data-free) default
OptimizerConfig. -/
structure MergedTabularConfig : Type where
  parameters : TabularParameters
  model_config : ModelConfigInst
deriving DecidableEq

/-- A constructed pytorch_tabular model object, tagged with the name of the
model class that built it. -/
structure PtModel : Type where
  modelClass : String
  config : MergedTabularConfig
deriving DecidableEq

/-- The external `TabNetModel` constructor (pytorch_tabular dependency):
builds a model object of class "TabNetModel" from a configuration. -/
def TabNetModel (config : MergedTabularConfig) : PtModel :=
  { modelClass := "TabNetModel", config := config }

/-- `load_pytorch_tabular` (backbones.py lines 27-33): instantiate the given
model-config class with the task type and the embedding dims from the
parameters, merge it with the parameters and a default OptimizerConfig, and
construct a `TabNetModel` from the merged configuration. -/
def load_pytorch_tabular (model_config : PtConfigKind) (task_type : String)
    (parameters : TabularParameters) : PtModel :=
  let mc : ModelConfigInst :=
    { kind := model_config, task := task_type, embedding_dims := parameters.embedding_dims }
  let config : MergedTabularConfig := { parameters := parameters, model_config := mc }
  TabNetModel config

/-- The `PYTORCH_TABULAR_BACKBONES` registry as populated by the loop in
backbones.py lines 35-45: each backbone name is registered to
`load_pytorch_tabular` partially applied to its config class. -/
def PYTORCH_TABULAR_BACKBONES : List (String × (String → TabularParameters → PtModel)) :=
  (List.zip
      [PtConfigKind.tabNetModelConfig, PtConfigKind.tabTransformerConfig,
        PtConfigKind.ftTransformerConfig, PtConfigKind.autoIntConfig,
        PtConfigKind.nodeConfig, PtConfigKind.categoryEmbeddingModelConfig]
      ["tabnet", "tabtransformer", "fttransformer", "autoint", "node", "category_embedding"]).map
    (fun p => (p.2, load_pytorch_tabular p.1))

/-- A concrete dataset class defining only the generic hooks inherited from
`InputBase` (generic `load_data` returning its first argument, generic
`load_sample` returning the sample unchanged), used in witnesses. -/
def exGenericCls : InputClass String String where
  dataHook := fun n => if n = "load_data" then some InputBase.load_data else none
  sampleHook := fun n => if n = "load_sample" then some (fun x => x) else none

/-- A concrete dataset class defining `predict_load_data` and
`predict_load_sample` overrides besides the generic hooks, in the shape of
`VideoClassificationPathsPredictInput` (input.py lines 228-276), used in
witnesses. -/
def exPredictCls : InputClass String String where
  dataHook := fun n =>
    if n = "predict_load_data" then some (fun _ => some ["predict_data"])
    else if n = "load_data" then some InputBase.load_data
    else none
  sampleHook := fun n =>
    if n = "predict_load_sample" then some (fun x => String.append "predict_" x)
    else if n = "load_sample" then some (fun x => x)
    else none

/-- A video whose every clip comes back with a null "video" entry, standing
for a video too short for the requested clip duration, used in the C6
counterexample and witness. -/
def exShortVideo : EncodedVideoModel Nat where
  name := "short"
  duration := 1
  get_clip := fun _ _ => some { video := none, audio := none }

/-- A video whose clips decode successfully, used in the C6 witness. -/
def exGoodVideo : EncodedVideoModel Nat where
  name := "good"
  duration := 5
  get_clip := fun _ _ => some { video := some 7, audio := none }

/-- A concrete predict-input state with a two-second clip duration and no
audio decoding, used in the C6 counterexample and witness. -/
def exPredictState : VideoPredictState where
  clip_sampler := fun _ _ => (0, 2, 0, 0, true)
  clip_sampler_clip_duration := 2
  decode_audio := false

/-- C1: for every running stage and each of the hook base names load_data and
load_sample, when the stage-qualified override is a member of the concrete
dataset class, `_call_load_data` and `_call_load_sample` resolve to and
invoke that override; when it is absent they resolve to and invoke the
generic hook. -/
theorem stage_override_resolution (cls : InputClass d s) (S : RunningStage) :
    (cls.hasMember (stagePieceOf S ++ "_" ++ "load_data") = true →
      resolve_function_hierarchy "load_data" cls.hasMember S =
        stagePieceOf S ++ "_" ++ "load_data") ∧
    (cls.hasMember (stagePieceOf S ++ "_" ++ "load_data") = false →
      resolve_function_hierarchy "load_data" cls.hasMember S = "load_data") ∧
    (cls.hasMember (stagePieceOf S ++ "_" ++ "load_sample") = true →
      resolve_function_hierarchy "load_sample" cls.hasMember S =
        stagePieceOf S ++ "_" ++ "load_sample") ∧
    (cls.hasMember (stagePieceOf S ++ "_" ++ "load_sample") = false →
      resolve_function_hierarchy "load_sample" cls.hasMember S = "load_sample") ∧
    (∀ args, call_load_data cls S args =
      (cls.dataHook (resolve_function_hierarchy "load_data" cls.hasMember S)).bind
        (fun f => f args)) ∧
    (∀ x, call_load_sample cls S x =
      (cls.sampleHook (resolve_function_hierarchy "load_sample" cls.hasMember S)).map
        (fun f => f x)) := by
  refine ⟨fun h => ?_, fun h => ?_, fun h => ?_, fun h => ?_, fun _ => rfl, fun _ => rfl⟩ <;>
    simp [resolve_function_hierarchy, h]

/-- Witness for C1: on a class with predict-stage overrides, resolution at
the predicting stage picks the override; on a class with only the generic
hooks, it falls back to the generic name. -/
theorem stage_override_resolution_witness :
    resolve_function_hierarchy "load_data" exPredictCls.hasMember RunningStage.predicting =
      "predict_load_data" ∧
    resolve_function_hierarchy "load_sample" exGenericCls.hasMember RunningStage.predicting =
      "load_sample" :=
  ⟨(stage_override_resolution exPredictCls RunningStage.predicting).1 rfl,
   (stage_override_resolution exGenericCls RunningStage.predicting).2.2.2.1 rfl⟩

/-- C2: constructing a dataset whose first positional load-argument is None
yields an empty instance (length 0 for the random-access variant, an
immediately exhausted iteration for the streaming variant) with zero
invocations of the load_data machinery; a non-None first argument makes the
constructor invoke it exactly once. -/
theorem init_null_gate (cls : InputClass d s) (stage : RunningStage) :
    (∀ rest, InputBase.initWithCount cls stage (none :: rest) =
      (Except.ok { running_stage := stage, data := [] }, 0)) ∧
    Input.len { running_stage := stage, data := ([] : List d) } = 0 ∧
    IterableInput.next cls
        (IterableInput.iter { running_stage := stage, data := ([] : List d) }) =
      Except.error PyError.stopIteration ∧
    ∀ x rest, (InputBase.initWithCount cls stage (some x :: rest)).2 = 1 := by
  refine ⟨fun rest => rfl, rfl, rfl, fun x rest => ?_⟩
  cases h : call_load_data cls stage (some x :: rest) <;>
    simp [InputBase.initWithCount, h]

/-- C9: constructing an InputBase with zero positional load-arguments is not
the same as passing None: the empty argument tuple makes `args[0]` raise an
IndexError instead of yielding an empty dataset, while an explicit None
yields the empty dataset. -/
theorem init_requires_first_positional_argument (cls : InputClass d s) (stage : RunningStage) :
    InputBase.init cls stage [] = Except.error PyError.indexError ∧
    InputBase.init cls stage [none] = Except.ok { running_stage := stage, data := [] } :=
  ⟨rfl, rfl⟩

/-- C5: a subclass of Input or IterableInput that overrides `__init__` makes
the metaclass `__new__` fail with the configuration RuntimeError, so the
class definition itself aborts and no class object (hence no instance) is
produced; a subclass that does not override `__init__` is defined
successfully. -/
theorem init_override_rejected_at_class_definition (cls : InputClass d s)
    (overridesInit : Bool) :
    (overridesInit = true →
      InputMeta_new cls overridesInit = Except.error (PyError.runtimeError checkInitMsg) ∧
      IterableInputMeta_new cls overridesInit =
        Except.error (PyError.runtimeError checkInitMsg)) ∧
    (overridesInit = false →
      InputMeta_new cls overridesInit = Except.ok cls ∧
      IterableInputMeta_new cls overridesInit = Except.ok cls) := by
  cases overridesInit <;>
    simp [InputMeta_new, IterableInputMeta_new, check_init]

/-- Witness for C5: a concrete subclass overriding `__init__` is rejected and
one not overriding it is accepted. -/
theorem init_override_rejected_witness :
    InputMeta_new exGenericCls true = Except.error (PyError.runtimeError checkInitMsg) ∧
    IterableInputMeta_new exGenericCls false = Except.ok exGenericCls :=
  ⟨((init_override_rejected_at_class_definition exGenericCls true).1 rfl).1,
   ((init_override_rejected_at_class_definition exGenericCls false).2 rfl).2⟩

/-- C10: every entry of the PYTORCH_TABULAR_BACKBONES registry builds its
configuration from the name-specific config class but then constructs a
TabNetModel, for every task type and parameter set. -/
theorem pytorch_tabular_backbones_always_tabnet (task : String) (params : TabularParameters) :
    PYTORCH_TABULAR_BACKBONES.map
      (fun p => (p.1, (p.2 task params).modelClass, (p.2 task params).config.model_config.kind)) =
    [("tabnet", "TabNetModel", PtConfigKind.tabNetModelConfig),
     ("tabtransformer", "TabNetModel", PtConfigKind.tabTransformerConfig),
     ("fttransformer", "TabNetModel", PtConfigKind.ftTransformerConfig),
     ("autoint", "TabNetModel", PtConfigKind.autoIntConfig),
     ("node", "TabNetModel", PtConfigKind.nodeConfig),
     ("category_embedding", "TabNetModel", PtConfigKind.categoryEmbeddingModelConfig)] :=
  rfl

/-- Counterexample for C3: the claim requires every negative index to fail
with IndexOutOfRange, but on a one-element dataset the Python sequence
indexing used by `Input.__getitem__` makes index -1 succeed and return the
loaded last element. -/
theorem input_getitem_negative_index_counterexample :
    (-1 : Int) < 0 ∧
    Input.getitem exGenericCls { running_stage := RunningStage.training, data := ["a"] } (-1) =
      Except.ok "a" :=
  ⟨by decide, rfl⟩

/-- C3 as amended: `__len__` returns the raw size N; `__getitem__(i)` for
0 ≤ i < N returns the resolved load_sample hook applied to the i-th raw
descriptor; a negative index follows Python sequence semantics, so for
-N ≤ i < 0 it returns the hook applied to descriptor N + i; only i ≥ N or
i < -N fail with IndexOutOfRange. -/
theorem input_getitem_python_indexing (cls : InputClass d s) (st : InputBaseState d) (f : d → s)
    (hres : cls.sampleHook
      (resolve_function_hierarchy "load_sample" cls.hasMember st.running_stage) = some f)
    (i : Int) :
    Input.len st = st.data.length ∧
    (∀ x, 0 ≤ i → st.data.get? i.toNat = some x →
      Input.getitem cls st i = Except.ok (f x)) ∧
    (∀ x, i < 0 → 0 ≤ i + (st.data.length : Int) →
      st.data.get? (i + (st.data.length : Int)).toNat = some x →
      Input.getitem cls st i = Except.ok (f x)) ∧
    ((st.data.length : Int) ≤ i ∨ i < -(st.data.length : Int) →
      Input.getitem cls st i = Except.error PyError.indexError) := by
  refine ⟨rfl, ?_, ?_, ?_⟩
  · intro x h0 hget
    have hne : ¬i < 0 := not_lt.2 h0
    rw [List.get?_eq_getElem?] at hget
    simp [Input.getitem, pySeqGet, hne, hget, call_load_sample, hres]
  · intro x hneg hge hget
    have hne : ¬i + (st.data.length : Int) < 0 := not_lt.2 hge
    rw [List.get?_eq_getElem?] at hget
    simp [Input.getitem, pySeqGet, hneg, hne, hget, call_load_sample, hres]
  · rintro (hge | hlt)
    · have h0 : (0 : Int) ≤ i := le_trans (Int.ofNat_nonneg _) hge
      have hne : ¬i < 0 := not_lt.2 h0
      have hnone : st.data.get? i.toNat = none := by
        rw [List.get?_eq_none]
        omega
      rw [List.get?_eq_getElem?] at hnone
      simp [Input.getitem, pySeqGet, hne, hnone]
    · have hneg : i < 0 := by omega
      have hjlt : i + (st.data.length : Int) < 0 := by omega
      simp [Input.getitem, pySeqGet, hneg, hjlt]

/-- Witness for C3 as amended: on a two-element dataset with the generic
load_sample hook, index 1 returns the second element, index -2 returns the
first, and index 2 raises IndexError. -/
theorem input_getitem_python_indexing_witness :
    Input.getitem exGenericCls { running_stage := RunningStage.training, data := ["a", "b"] } 1 =
      Except.ok "b" ∧
    Input.getitem exGenericCls { running_stage := RunningStage.training, data := ["a", "b"] } (-2) =
      Except.ok "a" ∧
    Input.getitem exGenericCls { running_stage := RunningStage.training, data := ["a", "b"] } 2 =
      Except.error PyError.indexError :=
  ⟨(input_getitem_python_indexing exGenericCls
      { running_stage := RunningStage.training, data := ["a", "b"] } (fun x => x) rfl 1).2.1
      "b" (by decide) rfl,
   (input_getitem_python_indexing exGenericCls
      { running_stage := RunningStage.training, data := ["a", "b"] } (fun x => x) rfl (-2)).2.2.1
      "a" (by decide) (by decide) rfl,
   (input_getitem_python_indexing exGenericCls
      { running_stage := RunningStage.training, data := ["a", "b"] } (fun x => x) rfl 2).2.2.2
      (Or.inl (by decide))⟩

/-- Auxiliary correspondence for the streaming variant: starting from any
remaining cursor suffix `l`, repeatedly calling `__next__` consumes exactly
`l`, producing the resolved load_sample hook of each element in order and
leaving the cursor exhausted. -/
theorem drive_map_aux (cls : InputClass d s) (stage : RunningStage) (dataL : List d) (f : d → s)
    (hres : cls.sampleHook
      (resolve_function_hierarchy "load_sample" cls.hasMember stage) = some f) :
    ∀ l : List d,
      IterableInput.drive cls l.length ⟨⟨stage, dataL⟩, l⟩ = (l.map f, ⟨⟨stage, dataL⟩, []⟩) := by
  intro l
  induction l with
  | nil => rfl
  | cons x l ih =>
      simp [IterableInput.drive, IterableInput.next, call_load_sample, hres, ih]

/-- C4: for a streaming dataset of raw size N, `__iter__` followed by
repeated `__next__` yields exactly the N samples obtained by applying the
resolved load_sample hook to the raw descriptors in order, then raises
StopIteration; calling `__iter__` again restores the state produced by the
first `__iter__`, restarting from the first element. -/
theorem iterable_sequence_spec (cls : InputClass d s) (stage : RunningStage) (dataL : List d)
    (f : d → s)
    (hres : cls.sampleHook
      (resolve_function_hierarchy "load_sample" cls.hasMember stage) = some f) :
    (IterableInput.drive cls dataL.length
        (IterableInput.iter { running_stage := stage, data := dataL })).1 = dataL.map f ∧
    IterableInput.next cls
        (IterableInput.drive cls dataL.length
          (IterableInput.iter { running_stage := stage, data := dataL })).2 =
      Except.error PyError.stopIteration ∧
    IterableInput.reiter
        (IterableInput.drive cls dataL.length
          (IterableInput.iter { running_stage := stage, data := dataL })).2 =
      IterableInput.iter { running_stage := stage, data := dataL } := by
  have h := drive_map_aux cls stage dataL f hres dataL
  have hiter : IterableInput.iter { running_stage := stage, data := dataL } =
      (⟨⟨stage, dataL⟩, dataL⟩ : IterState d) := rfl
  refine ⟨?_, ?_, ?_⟩ <;> rw [hiter, h] <;> rfl

/-- Witness for C4: the generic streaming dataset over ["a", "b"] yields
exactly ["a", "b"]. -/
theorem iterable_sequence_spec_witness :
    (IterableInput.drive exGenericCls 2
        (IterableInput.iter { running_stage := RunningStage.training, data := ["a", "b"] })).1 =
      ["a", "b"] :=
  (iterable_sequence_spec exGenericCls RunningStage.training ["a", "b"] (fun x => x) rfl).1

/-- C7: `__iter__` returns the instance itself, so every iteration handle
shares the one instance-local cursor; calling `__iter__` again while a pass
holds the cursor at any position `l` resets that shared cursor to the start
of the data, and the next `__next__` returns the first sample rather than
continuing from `l`. -/
theorem iterable_shared_cursor_restart (cls : InputClass d s) (stage : RunningStage)
    (x : d) (xs l : List d) (f : d → s)
    (hres : cls.sampleHook
      (resolve_function_hierarchy "load_sample" cls.hasMember stage) = some f) :
    (∀ st : IterState d, IterableInput.reiter st = { st with data_iter := st.data }) ∧
    IterableInput.reiter ⟨⟨stage, x :: xs⟩, l⟩ = IterableInput.iter ⟨stage, x :: xs⟩ ∧
    IterableInput.next cls (IterableInput.reiter ⟨⟨stage, x :: xs⟩, l⟩) =
      Except.ok (f x, ⟨⟨stage, x :: xs⟩, xs⟩) := by
  refine ⟨fun st => rfl, rfl, ?_⟩
  simp [IterableInput.reiter, IterableInput.next, call_load_sample, hres]

/-- Witness for C7: a pass that already consumed the whole data is reset by a
second `__iter__`, and the next `__next__` yields the first sample again. -/
theorem iterable_shared_cursor_restart_witness :
    IterableInput.next exGenericCls
        (IterableInput.reiter ⟨⟨RunningStage.training, ["a", "b"]⟩, []⟩) =
      Except.ok ("a", ⟨⟨RunningStage.training, ["a", "b"]⟩, ["b"]⟩) :=
  (iterable_shared_cursor_restart exGenericCls RunningStage.training "a" ["b"] []
      (fun x => x) rfl).2.2

/-- C8: the running stage recorded at construction is immutable: the
constructor stores exactly the stage it is given, and `__iter__` and
`__next__` (the only public operations that write instance state; `__len__`
and `__getitem__` are modelled as pure observers of the state) leave the
stored running stage unchanged, over any number of iteration steps. -/
theorem running_stage_immutable (cls : InputClass d s) (stage : RunningStage)
    (args : List (Option (List d))) (st : IterState d) :
    (∀ base : InputBaseState d, InputBase.init cls stage args = Except.ok base →
      base.running_stage = stage) ∧
    (IterableInput.reiter st).running_stage = st.running_stage ∧
    (∀ stB : InputBaseState d, (IterableInput.iter stB).running_stage = stB.running_stage) ∧
    (∀ (y : s) (st' : IterState d), IterableInput.next cls st = Except.ok (y, st') →
      st'.running_stage = st.running_stage) ∧
    (∀ n : Nat, ((IterableInput.drive cls n st).2).running_stage = st.running_stage) := by
  have hnext : ∀ (st : IterState d) (y : s) (st' : IterState d),
      IterableInput.next cls st = Except.ok (y, st') → st'.running_stage = st.running_stage := by
    intro st y st' h
    unfold IterableInput.next at h
    rcases hd : st.data_iter with _ | ⟨x, rest⟩ <;> rw [hd] at h
    · simp at h
    · rcases hc : call_load_sample cls st.running_stage x with _ | y2 <;> simp [hc] at h
      obtain ⟨h1, h2⟩ := h
      subst h2
      rfl
  refine ⟨?_, rfl, fun stB => rfl, hnext st, ?_⟩
  · intro base h
    unfold InputBase.init InputBase.initWithCount at h
    rcases hh : args.head? with _ | (_ | xs) <;> rw [hh] at h <;> simp at h
    · rw [← h]
    · rcases hc : call_load_data cls stage args with _ | nd <;> rw [hc] at h <;> simp at h
      rw [← h]
  · intro n
    induction n generalizing st with
    | zero => rfl
    | succ k ih =>
        unfold IterableInput.drive
        rcases hn : IterableInput.next cls st with e | ⟨y, st'⟩
        · rfl
        · simp only [hn]
          rw [ih st', hnext st y st' hn]

/-- Witness for C8: at a concrete construction and a concrete iteration step,
the recorded running stage is unchanged. -/
theorem running_stage_immutable_witness :
    ({ running_stage := RunningStage.training, data := ["a"] } :
        InputBaseState String).running_stage = RunningStage.training ∧
    ((⟨⟨RunningStage.training, ["a", "b"]⟩, ["b"]⟩ : IterState String)).running_stage =
      RunningStage.training :=
  ⟨(running_stage_immutable exGenericCls RunningStage.training [some ["a"]]
      (⟨⟨RunningStage.training, ["a", "b"]⟩, ["a", "b"]⟩ : IterState String)).1
      { running_stage := RunningStage.training, data := ["a"] } rfl,
   (running_stage_immutable exGenericCls RunningStage.training [some ["a"]]
      (⟨⟨RunningStage.training, ["a", "b"]⟩, ["a", "b"]⟩ : IterState String)).2.2.2.1
      "a" ⟨⟨RunningStage.training, ["a", "b"]⟩, ["b"]⟩ rfl⟩

/-- Counterexample for C6: the configuration error raised by
`predict_load_sample` for a null clip does not identify the offending input:
two distinct input paths whose videos are equally too short raise literally
the same exception, carrying only the available duration and the requested
clip duration. -/
theorem predict_error_not_input_specific :
    "a.mp4" ≠ "b.mp4" ∧
    predict_load_sample exPredictState (fun _ => exShortVideo) "a.mp4" =
      Except.error (PyError.misconfigurationException (tooShortMsg 1 2)) ∧
    predict_load_sample exPredictState (fun _ => exShortVideo) "b.mp4" =
      Except.error (PyError.misconfigurationException (tooShortMsg 1 2)) :=
  ⟨by decide, rfl, rfl⟩

/-- C6 as amended: when the decoded clip is null (the loaded clip is missing,
its video is missing, or audio decoding was requested and its audio is
missing), `predict_load_sample` fails with a configuration error reporting
the available video duration and the requested clip duration (but not the
offending input path); when the clip is not null, no error is raised and a
sample mapping for the input is returned. -/
theorem predict_load_sample_null_clip_spec (st : VideoPredictState)
    (fromPath : String → EncodedVideoModel τ) (sample : String) :
    (clipIsNull st.decode_audio
        ((fromPath sample).get_clip (st.clip_sampler 0 (fromPath sample).duration).1
          (st.clip_sampler 0 (fromPath sample).duration).2.1) = true →
      predict_load_sample st fromPath sample =
        Except.error (PyError.misconfigurationException
          (tooShortMsg (fromPath sample).duration st.clip_sampler_clip_duration))) ∧
    (clipIsNull st.decode_audio
        ((fromPath sample).get_clip (st.clip_sampler 0 (fromPath sample).duration).1
          (st.clip_sampler 0 (fromPath sample).duration).2.1) = false →
      ∃ out : PredictVideoSample τ,
        predict_load_sample st fromPath sample = Except.ok out ∧
        out.metadata_filepath = sample ∧ out.video_name = (fromPath sample).name) := by
  constructor
  · intro h
    simp [predict_load_sample, h]
  · intro h
    rcases hclip : (fromPath sample).get_clip (st.clip_sampler 0 (fromPath sample).duration).1
        (st.clip_sampler 0 (fromPath sample).duration).2.1 with _ | clip
    · rw [hclip] at h
      simp [clipIsNull] at h
    · rcases hv : clip.video with _ | frames
      · rw [hclip] at h
        simp [clipIsNull, hv] at h
      · rw [hclip] at h
        have heq : predict_load_sample st fromPath sample =
            Except.ok
              { video := frames
                video_name := (fromPath sample).name
                video_index := 0
                clip_index := (st.clip_sampler 0 (fromPath sample).duration).2.2.1
                aug_index := (st.clip_sampler 0 (fromPath sample).duration).2.2.2.1
                audio := clip.audio
                metadata_filepath := sample } := by
          simp [predict_load_sample, h, hclip, hv]
        exact ⟨_, heq, rfl, rfl⟩

/-- Witness for C6 as amended: a too-short video raises the duration-bearing
configuration error and a decodable video returns a sample mapping. -/
theorem predict_load_sample_null_clip_spec_witness :
    predict_load_sample exPredictState (fun _ => exShortVideo) "short.mp4" =
      Except.error (PyError.misconfigurationException (tooShortMsg 1 2)) ∧
    ∃ out : PredictVideoSample Nat,
      predict_load_sample exPredictState (fun _ => exGoodVideo) "good.mp4" = Except.ok out ∧
      out.metadata_filepath = "good.mp4" ∧ out.video_name = "good" :=
  ⟨(predict_load_sample_null_clip_spec exPredictState (fun _ => exShortVideo) "short.mp4").1 rfl,
   (predict_load_sample_null_clip_spec exPredictState (fun _ => exGoodVideo) "good.mp4").2 rfl⟩

/-- Witness for C2: on the generic class, constructing with first argument
None performs no load call and yields empty data, while a non-None first
argument performs exactly one. -/
theorem init_null_gate_witness :
    InputBase.initWithCount exGenericCls RunningStage.training [none] =
      (Except.ok { running_stage := RunningStage.training, data := [] }, 0) ∧
    (InputBase.initWithCount exGenericCls RunningStage.training [some ["a"]]).2 = 1 :=
  ⟨(init_null_gate exGenericCls RunningStage.training).1 [],
   (init_null_gate exGenericCls RunningStage.training).2.2.2 ["a"] []⟩

/-- Witness for C9: constructing the generic class with an empty argument
tuple raises IndexError. -/
theorem init_requires_first_positional_argument_witness :
    InputBase.init exGenericCls RunningStage.training [] = Except.error PyError.indexError :=
  (init_requires_first_positional_argument exGenericCls RunningStage.training).1

/-- Witness for C10: at a concrete task type and parameter set, every
registered backbone constructs a TabNetModel from its own config class. -/
theorem pytorch_tabular_backbones_always_tabnet_witness :
    PYTORCH_TABULAR_BACKBONES.map
      (fun p => (p.1,
        (p.2 "classification" { embedding_dims := [(2, 1)], rest := [] }).modelClass,
        (p.2 "classification"
          { embedding_dims := [(2, 1)], rest := [] }).config.model_config.kind)) =
    [("tabnet", "TabNetModel", PtConfigKind.tabNetModelConfig),
     ("tabtransformer", "TabNetModel", PtConfigKind.tabTransformerConfig),
     ("fttransformer", "TabNetModel", PtConfigKind.ftTransformerConfig),
     ("autoint", "TabNetModel", PtConfigKind.autoIntConfig),
     ("node", "TabNetModel", PtConfigKind.nodeConfig),
     ("category_embedding", "TabNetModel", PtConfigKind.categoryEmbeddingModelConfig)] :=
  pytorch_tabular_backbones_always_tabnet "classification"
    { embedding_dims := [(2, 1)], rest := [] }
